import Mathlib

-- Verification development for the JobHunt lead-intake pipeline.
-- Shallow embedding of the Python sources:
--   sources/base.py        (JobLead data model)
--   normalizers/location_parser.py
--   filters/tech_filter.py
--   llm/manager.py         (CircuitBreaker, LLMManager.generate, score_lead)
--   utils/crawler.py       (crawl_lead, enrich_leads)
--   runner.py              (generate_lead_id, main_async pre-filter and finalize loops)
-- Scores and timestamps are modelled as exact rationals (Python floats are not
-- modelled bit-for-bit; all score arithmetic in the sources stays exact on the
-- values the claims mention).  SHA-256 is modelled as an uninterpreted
-- deterministic function parameter: the claims depend only on it being a pure
-- function of its input string.

-- Rational arithmetic is irreducible by default, which blocks decide-based
-- evaluation of the executable embedding on concrete inputs; restore
-- semireducibility so closed theorems below can be settled by evaluation.
set_option allowUnsafeReducibility true in
attribute [semireducible] Rat.add Rat.sub Rat.mul Rat.inv Rat.ofScientific

-- ===== Python string primitives =====

-- Characters removed by Python's str.strip() with no argument (ASCII subset of
-- Python's whitespace definition; the sources only strip ordinary whitespace).
def isPySpace (c : Char) : Bool :=
  c = ' ' || c = '\t' || c = '\n' || c = '\r' || c = Char.ofNat 11 || c = Char.ofNat 12

-- Python str.strip(): drop whitespace from both ends.
def pyStrip (s : String) : String :=
  String.mk (((s.toList.dropWhile isPySpace).reverse.dropWhile isPySpace).reverse)

-- Python str.lower() / str.upper() (ASCII case mapping; the case-mapped text in
-- the sources is ASCII).
def pyLower (s : String) : String := String.mk (s.toList.map Char.toLower)

def pyUpper (s : String) : String := String.mk (s.toList.map Char.toUpper)

-- The literal pattern pat occurs in s starting at index i.
def occursAt (pat s : List Char) (i : ℕ) : Bool :=
  (s.drop i).take pat.length == pat

-- Python's substring test `pat in s`.
def pySubstrL (pat s : List Char) : Bool :=
  (List.range (s.length + 1)).any (fun i => occursAt pat s i)

def pySubstr (pat s : String) : Bool := pySubstrL pat.toList s.toList

-- ===== Model of re.search with word boundaries =====

-- CJK Unified Ideographs range of the anti-spam regex [一-鿿].
def isCJK (c : Char) : Bool := 0x4e00 ≤ c.toNat && c.toNat ≤ 0x9fff

-- Cyrillic range of the anti-spam regex [Ѐ-ӿ].
def isCyrillic (c : Char) : Bool := 0x400 ≤ c.toNat && c.toNat ≤ 0x4ff

-- Word character for the \b boundary (Python \w restricted to the scripts this
-- codebase manipulates: ASCII alphanumerics, underscore, CJK, Cyrillic).
def isWordChar (c : Char) : Bool :=
  c.isAlphanum || c = '_' || isCJK c || isCyrillic c

def wordAt (s : List Char) (i : ℕ) : Bool :=
  match s[i]? with
  | some c => isWordChar c
  | none => false

-- A \b boundary holds at position p when exactly one of the two surrounding
-- positions carries a word character (out of range counts as non-word).
def boundaryAt (s : List Char) (p : ℕ) : Bool :=
  (if p = 0 then false else wordAt s (p - 1)) != wordAt s p

-- re.search(rf"\b{pat}\b", s) for a literal (escaped) pattern pat.
def reSearchWBLc (pat s : List Char) : Bool :=
  (List.range (s.length + 1)).any (fun i =>
    occursAt pat s i && boundaryAt s i && boundaryAt s (i + pat.length))

def reSearchWB (pat s : String) : Bool := reSearchWBLc pat.toList s.toList

-- ===== JobLead (sources/base.py, lines 6-33) =====

-- The pydantic model JobLead, field for field and default for default
-- (captured_at_utc's default_factory timestamp is modelled as "").  The model
-- declares NO full_description or crawled_at field, although utils/crawler.py
-- assigns them and llm/manager.py, runner.py and storage/sheets_store.py read
-- them; the attribute semantics of those two undeclared attributes is modelled
-- by setFullDescription and getFullDescription right below the structure.
structure JobLead where
  lead_id : String := ""
  source : String
  captured_at_utc : String := ""
  posted_at_utc : String := ""
  company : String
  role_title : String
  role_category : String := "unknown"
  seniority : String := "unknown"
  employment_type : String := "unknown"
  location_raw : String
  city : String := ""
  state : String := ""
  country : String := "USA"
  remote_type : String := "unknown"
  salary_min : String := ""
  salary_max : String := ""
  salary_currency : String := "USD"
  salary_raw : String := ""
  tech_stack_keywords : String := ""
  description_snippet : String := ""
  hiring_language_flags : String := ""
  link : String
  apply_link : String := ""
  match_score : ℚ := 0
  matched_keywords : String := ""
  status : String := "new"
  notes : String := ""
deriving DecidableEq

-- Python attribute semantics for the undeclared full_description attribute.
-- Assignment: a pydantic BaseModel rejects assignment to a field not declared
-- on the model, raising ValueError, so `lead.full_description = v`
-- (utils/crawler.py line 36) always fails — the attribute is never present on
-- any JobLead instance.  Read: accessing an attribute that was never set
-- raises AttributeError, so `lead.full_description` (llm/manager.py line 141,
-- runner.py line 126) always raises.
def attributeErrorFullDescription : String :=
  "AttributeError: JobLead object has no attribute full_description"

def setFullDescription (_lead : JobLead) (_v : String) : Except String JobLead :=
  Except.error "ValueError: JobLead object has no field full_description"

def getFullDescription (_lead : JobLead) : Except String String :=
  Except.error attributeErrorFullDescription

-- ===== LocationParser (normalizers/location_parser.py) =====

namespace LocationParser

structure LocData where
  city : String
  state : String
  country : String
  remote_type : String
  is_us : Bool
deriving DecidableEq

-- Allowlist patterns, each searched as re.search(pattern, raw) where the
-- pattern carries its own \b anchors and \. escapes a literal dot.
def us_country_indicators : List String :=
  ["united states", "usa", "u.s.", "u.s", "us"]

def us_state_codes : List String :=
  ["AL", "AK", "AZ", "AR", "CA", "CO", "CT", "DE", "FL", "GA",
   "HI", "ID", "IL", "IN", "IA", "KS", "KY", "LA", "ME", "MD",
   "MA", "MI", "MN", "MS", "MO", "MT", "NE", "NV", "NH", "NJ",
   "NM", "NY", "NC", "ND", "OH", "OK", "OR", "PA", "RI", "SC",
   "SD", "TN", "TX", "UT", "VT", "VA", "WA", "WV", "WI", "WY",
   "DC"]

def us_state_names : List String :=
  ["alabama", "alaska", "arizona", "arkansas", "california", "colorado",
   "connecticut", "delaware", "florida", "georgia",
   "hawaii", "idaho", "illinois", "indiana", "iowa", "kansas", "kentucky",
   "louisiana", "maine", "maryland",
   "massachusetts", "michigan", "minnesota", "mississippi", "missouri",
   "montana", "nebraska", "nevada", "new hampshire", "new jersey",
   "new mexico", "new york", "north carolina", "north dakota", "ohio",
   "oklahoma", "oregon", "pennsylvania", "rhode island", "south carolina",
   "south dakota", "tennessee", "texas", "utah", "vermont", "virginia",
   "washington", "west virginia", "wisconsin", "wyoming",
   "district of columbia"]

def foreign_indicators : List String :=
  ["india", "uk", "united kingdom", "london", "canada", "toronto", "vancouver",
   "ontario", "germany", "berlin", "munich", "france", "paris", "spain",
   "madrid", "barcelona", "australia", "sydney", "melbourne", "china", "japan",
   "tokyo", "singapore", "brazil", "mexico", "dubai", "uae", "netherlands",
   "amsterdam", "sweden", "stockholm",
   "bangalore", "mumbai", "delhi", "hyderabad", "pune", "chennai"]

-- raw = raw_location.lower().strip() if raw_location else ""
def locNorm (raw_location : String) : String :=
  if raw_location = "" then "" else pyStrip (pyLower raw_location)

-- LocationParser.parse, line for line.
def parse (raw_location : String) : LocData :=
  let raw := locNorm raw_location
  let remote_type :=
    if pySubstr "remote" raw then "remote"
    else if pySubstr "hybrid" raw then "hybrid"
    else if pySubstr "onsite" raw || pySubstr "on-site" raw then "onsite"
    else "onsite"
  match foreign_indicators.find? (fun f => reSearchWB f raw) with
  | some _ => ⟨"Unknown", "Unknown", "Non-US", remote_type, false⟩
  | none =>
    let is_us :=
      us_country_indicators.any (fun ind => reSearchWB ind raw) ||
      us_state_names.any (fun n => reSearchWB n raw) ||
      us_state_codes.any (fun c => reSearchWB c (pyUpper raw_location))
    let state_extracted :=
      (us_state_codes.find? (fun c => reSearchWB c (pyUpper raw_location))).getD ""
    ⟨"Unknown", state_extracted, if is_us then "USA" else "Unknown",
     remote_type, is_us⟩

end LocationParser

-- ===== TechFilter (filters/tech_filter.py) =====

namespace TechFilter

-- The config["filters"]["roles"] keyword lists consumed by TechFilter
-- (config/config.yaml is not part of the sources; the lists stay abstract).
structure FiltersConf where
  exclude_keywords : List String
  include_keywords : List String

-- text_corpus = (role_title + " " + description_snippet + " " + tech_stack_keywords).lower()
def corpusOf (lead : JobLead) : String :=
  pyLower (lead.role_title ++ " " ++ lead.description_snippet ++ " " ++ lead.tech_stack_keywords)

-- re.search(r"[一-鿿Ѐ-ӿ]", s)
def hasNonEnglish (s : String) : Bool :=
  s.toList.any (fun c => isCJK c || isCyrillic c)

def categorize (title : String) : String :=
  let t := pyLower title
  if pySubstr "data" t || pySubstr "analyst" t then "data"
  else if pySubstr "backend" t || pySubstr "back-end" t then "backend"
  else if pySubstr "frontend" t || pySubstr "front-end" t || pySubstr "ui" t then "frontend"
  else if pySubstr "full stack" t || pySubstr "fullstack" t then "fullstack"
  else if pySubstr "machine learning" t || pySubstr "ml" t || pySubstr "ai" t then "ml-ai"
  else if pySubstr "devops" t || pySubstr "sre" t || pySubstr "cloud" t then "devops-sre"
  else if pySubstr "security" t then "security"
  else "other-tech"

-- The inclusion keywords that hit the corpus, in configuration order.
def incHits (cfg : FiltersConf) (lead : JobLead) : List String :=
  cfg.include_keywords.filter (fun w => reSearchWB (pyLower w) (corpusOf lead))

-- TechFilter.process_lead.  The exclusion loop with early return is the first
-- matching keyword (find?); the non-English check and scoring follow the
-- source's branch order exactly.
def process_lead (cfg : FiltersConf) (lead : JobLead) : JobLead :=
  match cfg.exclude_keywords.find? (fun w => reSearchWB (pyLower w) (corpusOf lead)) with
  | some bad_word =>
    { lead with match_score := 0, notes := "Excluded by keyword: " ++ bad_word }
  | none =>
    if hasNonEnglish lead.role_title then
      { lead with match_score := 0, notes := "Excluded: Non-English characters detected" }
    else
      let hits := incHits cfg lead
      let lead1 := { lead with matched_keywords := String.intercalate ", " hits }
      let lead2 :=
        if hits.length ≠ 0 then
          { lead1 with match_score := min ((0.5 : ℚ) + (hits.length : ℚ) * 0.1) 1 }
        else
          { lead1 with match_score := 0.1,
                       notes := "Snippet vague, need deep crawl to confirm." }
      { lead2 with role_category := categorize lead2.role_title }

end TechFilter

-- ===== LLMManager.generate with CircuitBreaker (llm/manager.py) =====

namespace LLMManager

-- One entry of config["llm"]["providers"].
structure ProviderConf where
  name : String
  models : List String

-- The configuration LLMManager reads in __init__ (cooldown_seconds defaults to
-- 300 in CircuitBreaker.__init__).
structure LLMCfg where
  providers : List ProviderConf
  cooldown : ℚ := 300
  run_budget : ℕ

-- The mutable state of one LLMManager: the breaker's failures dict (total
-- function, absent keys read as 0 via failures.get(key, 0)) and the
-- successful-call counter.
structure GenState where
  failures : String → ℚ
  calls_this_run : ℕ

-- Outcome oracle for _call_provider(provider, model, prompt): an exception
-- (including the raised rate-limit errors) or the returned text.
abbrev Oracle := String → String → Except String String

-- What one call to generate returns and leaves behind: the result, the
-- breaker map, the call counter, and the endpoints on which _call_provider
-- was actually invoked, in invocation order.
structure GenResult where
  res : Option String
  failures : String → ℚ
  calls : ℕ
  attempted : List (String × String)

-- The provider loop flattened to (provider name, model) pairs in trial order.
def endpointsOf (ps : List ProviderConf) : List (String × String) :=
  ps.flatMap (fun p => p.models.map (fun m => (p.name, m)))

-- The nested provider/model loop of generate.  can_try is inlined:
-- time.time() - failures.get(key, 0) > cooldown, with `now` the clock during
-- this call; record_failure stores `now` under the endpoint key.
def generateGo (cooldown now : ℚ) (oracle : Oracle) :
    List (String × String) → (String → ℚ) → ℕ → GenResult
  | [], fails, calls => ⟨none, fails, calls, []⟩
  | (pn, m) :: rest, fails, calls =>
    if now - fails (pn ++ ":" ++ m) > cooldown then
      match oracle pn m with
      | Except.ok r =>
        if r ≠ "" then ⟨some r, fails, calls + 1, [(pn, m)]⟩
        else
          let g := generateGo cooldown now oracle rest fails calls
          ⟨g.res, g.failures, g.calls, (pn, m) :: g.attempted⟩
      | Except.error _ =>
        let fails2 := fun k => if k = pn ++ ":" ++ m then now else fails k
        let g := generateGo cooldown now oracle rest fails2 calls
        ⟨g.res, g.failures, g.calls, (pn, m) :: g.attempted⟩
    else generateGo cooldown now oracle rest fails calls

-- LLMManager.generate: the run-budget guard sits once at the top, before any
-- endpoint is iterated.
def generate (cfg : LLMCfg) (oracle : Oracle) (now : ℚ) (st : GenState) : GenResult :=
  if st.calls_this_run ≥ cfg.run_budget then
    ⟨none, st.failures, st.calls_this_run, []⟩
  else
    generateGo cfg.cooldown now oracle (endpointsOf cfg.providers) st.failures st.calls_this_run

end LLMManager

-- ===== JSON subset and LLMManager.score_lead (llm/manager.py, lines 135-188) =====

-- Values of the JSON subset score_lead's responses use: numbers and plain
-- strings (json.loads restricted to flat objects of these; escape sequences,
-- exponents, booleans, null and nesting are outside the modelled subset and
-- parse as failures).
inductive JVal where
  | num (q : ℚ)
  | str (s : String)
deriving DecidableEq

def jSkipWs (l : List Char) : List Char :=
  l.dropWhile (fun c => c = ' ' || c = '\n' || c = '\t' || c = '\r')

def natOfDigits (l : List Char) : ℕ :=
  l.foldl (fun a c => a * 10 + (c.toNat - 48)) 0

-- Parse a decimal literal (optional minus, digits, optional fraction).
def parseNumber? (l : List Char) : Option (ℚ × List Char) :=
  let s := match l with
    | '-' :: rest => (true, rest)
    | _ => (false, l)
  let ip := s.2.takeWhile Char.isDigit
  let l2 := s.2.dropWhile Char.isDigit
  if ip = [] then none
  else
    match l2 with
    | '.' :: rest =>
      let fp := rest.takeWhile Char.isDigit
      let l3 := rest.dropWhile Char.isDigit
      if fp = [] then none
      else
        let q : ℚ := (natOfDigits ip : ℚ) + (natOfDigits fp : ℚ) / ((10 : ℚ) ^ fp.length)
        some (if s.1 then -q else q, l3)
    | _ => some (if s.1 then -(natOfDigits ip : ℚ) else (natOfDigits ip : ℚ), l2)

-- Parse a double-quoted string without escapes.
def parseJString? : List Char → Option (String × List Char)
  | '\"' :: rest =>
    (match rest.dropWhile (fun c => c ≠ '\"') with
     | '\"' :: rest2 => some (String.mk (rest.takeWhile (fun c => c ≠ '\"')), rest2)
     | _ => none)
  | _ => none

def parseJVal? (l : List Char) : Option (JVal × List Char) :=
  let l1 := jSkipWs l
  match parseJString? l1 with
  | some (s, r) => some (JVal.str s, r)
  | none =>
    match parseNumber? l1 with
    | some (q, r) => some (JVal.num q, r)
    | none => none

def jColon : Char := ':'

def jComma : Char := ','

def jLBrace : Char := Char.ofNat 123

def jRBrace : Char := Char.ofNat 125

-- Parse the comma-separated members of an object (fuel-bounded recursion).
def parseMembers : ℕ → List Char → Option (List (String × JVal) × List Char)
  | 0, _ => none
  | fuel + 1, l =>
    match parseJString? (jSkipWs l) with
    | none => none
    | some (k, r1) =>
      match jSkipWs r1 with
      | c :: r2 =>
        if c = jColon then
          match parseJVal? r2 with
          | none => none
          | some (v, r3) =>
            match jSkipWs r3 with
            | d :: r4 =>
              if d = jComma then
                match parseMembers fuel r4 with
                | some (ms, r5) => some ((k, v) :: ms, r5)
                | none => none
              else some ([(k, v)], d :: r4)
            | [] => some ([(k, v)], [])
        else none
      | [] => none

-- json.loads restricted to a single flat object; anything else is a parse
-- failure (in the source: a raised exception swallowed by the except clause).
def jsonObjOfString (s : String) : Option (List (String × JVal)) :=
  match jSkipWs s.toList with
  | c :: r =>
    if c = jLBrace then
      match jSkipWs r with
      | d :: r2 =>
        if d = jRBrace then (if jSkipWs r2 = [] then some [] else none)
        else
          match parseMembers (s.toList.length + 1) (jSkipWs r) with
          | some (ms, rest) =>
            (match jSkipWs rest with
             | e :: r3 => if e = jRBrace ∧ jSkipWs r3 = [] then some ms else none
             | [] => none)
          | none => none
      | [] => none
    else none
  | [] => none

-- dict.get(k): with duplicate keys json.loads keeps the last one.
def jGet (obj : List (String × JVal)) (k : String) : Option JVal :=
  (obj.reverse.find? (fun p => p.1 = k)).map (fun p => p.2)

-- Python float(x) on a parsed JSON value: identity on numbers, numeric-string
-- conversion on strings (same decimal subset), failure otherwise.
def pyFloat? (v : JVal) : Option ℚ :=
  match v with
  | JVal.num q => some q
  | JVal.str s =>
    match parseNumber? (pyStrip s).toList with
    | some (q, []) => some q
    | _ => none

-- Rendering of the reason value inside the f-string (numeric reasons are
-- rendered approximately; the claims never depend on that case).
def jRender (v : JVal) : String :=
  match v with
  | JVal.str s => s
  | JVal.num q => toString q

-- Python str.replace(pat, rep): all non-overlapping occurrences, left to right
-- (fuel-bounded; fuel = length of the subject suffices).
def pyReplaceL : ℕ → List Char → List Char → List Char → List Char
  | 0, s, _, _ => s
  | _ + 1, [], _, _ => []
  | fuel + 1, c :: rest, pat, rep =>
    if pat ≠ [] ∧ occursAt pat (c :: rest) 0 then
      rep ++ pyReplaceL fuel ((c :: rest).drop pat.length) pat rep
    else c :: pyReplaceL fuel rest pat rep

def pyReplace (s pat rep : String) : String :=
  String.mk (pyReplaceL s.toList.length s.toList pat.toList rep.toList)

-- clean_text = response_text.strip().replace("```json", "").replace("```", "")
def pyCleanResponse (t : String) : String :=
  pyReplace (pyReplace (pyStrip t) "```json" "") "```" ""

namespace LLMManager

-- The parse attempt of score_lead's try block (manager.py lines 174-182):
-- json.loads on the cleaned text, then float(data.get("score", lead.match_score))
-- and data.get("reason", "No reason provided").  none models any raised-and-
-- caught exception on this path.
def scoreParsedFull (d : ℚ) (t : String) : Option (ℚ × String) :=
  match jsonObjOfString (pyCleanResponse t) with
  | none => none
  | some obj =>
    match (match jGet obj "score" with
           | some v => pyFloat? v
           | none => some d) with
    | none => none
    | some q => some (q, ((jGet obj "reason").map jRender).getD "No reason provided")

-- LLMManager.score_lead with the generate() result passed as resp.  The guard
-- `if not lead.full_description` (line 141) reads the undeclared attribute and
-- raises AttributeError before anything else runs; the try block only starts
-- at line 169, so the error escapes score_lead itself.  The body below the
-- guard is transcribed faithfully (falsy response and parse failure keep the
-- lead untouched, success overwrites match_score and notes) but is unreachable
-- on any constructible JobLead.
def score_lead (lead : JobLead) (resp : Option String) : Except String JobLead :=
  match getFullDescription lead with
  | Except.error e => Except.error e
  | Except.ok desc =>
    if desc = "" then Except.ok lead
    else
      match resp with
      | none => Except.ok lead
      | some t =>
        if t = "" then Except.ok lead
        else
          match scoreParsedFull lead.match_score t with
          | none => Except.ok lead
          | some qr =>
            Except.ok { lead with match_score := qr.1, notes := "LLM: " ++ qr.2 }

-- The call site in runner.py lines 128-132: score_lead wrapped in try/except,
-- a raised error logged and the lead kept exactly as it was.
def score_lead_call (lead : JobLead) (resp : Option String) : JobLead :=
  match score_lead lead resp with
  | Except.ok l => l
  | Except.error _ => lead

end LLMManager

-- ===== Enrichment crawler (utils/crawler.py) =====

-- Outcome of crawler.arun(url=lead.link): a raised exception, or a
-- CrawlResult with success flag and markdown content.
inductive FetchOutcome where
  | raise (msg : String)
  | result (success : Bool) (markdown : String)
deriving DecidableEq

-- crawl_lead(crawler, lead) given the fetch outcome; `now` models
-- datetime.utcnow().isoformat().  All exceptions inside are caught (line 42),
-- so the function is total and never mutates the lead on a failing path; the
-- assignment at line 36 is setFullDescription, which always raises (see the
-- attribute-semantics note at JobLead), so the enrichment branch never takes
-- effect.
def crawl_lead (lead : JobLead) (outcome : FetchOutcome) (_now : String) : JobLead :=
  if ¬ pySubstr "http" lead.link then lead
  else
    match outcome with
    | FetchOutcome.raise _ => lead
    | FetchOutcome.result success md =>
      if success then
        if md.length < 500 && (pySubstr "Sign In" md || pySubstr "Join LinkedIn" md) then
          lead
        else
          match setFullDescription lead md with
          | Except.error _ => lead
          | Except.ok lead2 =>
            -- Unreachable: the assignment always raises.  Lines 37-38 would go
            -- on to stamp crawled_at (an attribute JobLead cannot hold either)
            -- and append to notes.
            { lead2 with notes := lead2.notes ++ " [Crawled]" }
      else lead

-- enrich_leads: batches of 3 run concurrently, but each crawl_lead touches
-- only its own lead, so the batch structure only affects timing; the result is
-- the per-lead map over the given fetch outcomes.
def enrich_leads (pairs : List (JobLead × FetchOutcome)) (now : String) : List JobLead :=
  pairs.map (fun p => crawl_lead p.1 p.2 now)

-- ===== Pipeline orchestrator (runner.py) =====

-- generate_lead_id: sha256(company.lower() + role_title.lower() + link),
-- hex-encoded.  The digest is an uninterpreted deterministic function
-- parameter sha256hex; every claim below depends only on it being a pure
-- function of the concatenated string.
def generate_lead_id (sha256hex : String → String) (lead : JobLead) : String :=
  sha256hex (pyLower lead.company ++ pyLower lead.role_title ++ lead.link)

-- The configuration slice main_async reads.  geo_allowed_countries is the
-- truthiness of config["filters"]["geo"]["allowed_countries"];
-- alert_threshold is 0.85 unless overridden under notifications.discord.
structure RunnerCfg where
  filters : TechFilter.FiltersConf
  match_score_threshold : ℚ
  geo_allowed_countries : Bool
  llm_enabled : Bool
  alert_threshold : ℚ := 0.85

-- Per-lead outcome of the pre-filter loop (runner.py lines 78-110), labelled
-- by the stage that dropped the lead.
inductive PreOutcome where
  | droppedDuplicate
  | droppedGeo
  | droppedPrefilter
  | candidate (lead : JobLead)
deriving DecidableEq

-- One iteration of the pre-filter loop.  The loop body never adds the fresh
-- lead_id to seen_ids, so the membership test for every raw lead in a run is
-- against the same set loaded at start; consequently the step is a pure
-- function of that initial set.
def prefilterStep (cfg : RunnerCfg) (sha256hex : String → String)
    (seen_ids : List String) (lead : JobLead) : PreOutcome :=
  let lid := generate_lead_id sha256hex lead
  if lid ∈ seen_ids then PreOutcome.droppedDuplicate
  else
    let lead1 := { lead with lead_id := lid,
                             company := pyStrip lead.company,
                             role_title := pyStrip lead.role_title }
    let loc := LocationParser.parse lead1.location_raw
    let lead2 := { lead1 with city := loc.city, state := loc.state,
                              country := loc.country, remote_type := loc.remote_type }
    if cfg.geo_allowed_countries && ¬ pySubstr "USA" lead2.country && ¬ loc.is_us then
      PreOutcome.droppedGeo
    else
      let lead3 := TechFilter.process_lead cfg.filters lead2
      if lead3.match_score < cfg.match_score_threshold then PreOutcome.droppedPrefilter
      else PreOutcome.candidate lead3

def asCandidate (o : PreOutcome) : Option JobLead :=
  match o with
  | PreOutcome.candidate l => some l
  | _ => none

-- candidates_to_crawl at the end of the pre-filter loop.
def runPrefilter (cfg : RunnerCfg) (sha256hex : String → String)
    (seen_ids : List String) (raws : List JobLead) : List JobLead :=
  raws.filterMap (fun l => asCandidate (prefilterStep cfg sha256hex seen_ids l))

-- Accumulated state of the finalize loop (runner.py lines 119-150).
structure RunAcc where
  new_leads_to_save : List JobLead
  new_seen_ids : List String
  seen_ids : List String
  high_value : List JobLead
deriving DecidableEq

-- One iteration of the finalize loop.  Line 126 (`if lead.full_description
-- and config["llm"]["enabled"]`) evaluates the attribute read first and sits
-- OUTSIDE any try, so the AttributeError escapes the loop and aborts
-- main_async.  The rest of the body is transcribed faithfully (the scoring
-- call is inside try/except, hence score_lead_call; no membership test against
-- seen_ids before admitting) but is unreachable on constructible leads.
def finalizeStep (cfg : RunnerCfg) (llmResp : JobLead → Option String)
    (acc : RunAcc) (lead : JobLead) : Except String RunAcc :=
  match getFullDescription lead with
  | Except.error e => Except.error e
  | Except.ok desc =>
    let lead1 :=
      if desc ≠ "" && cfg.llm_enabled then
        LLMManager.score_lead_call lead (llmResp lead)
      else lead
    Except.ok
      (if lead1.match_score < cfg.match_score_threshold then acc
       else
         { acc with
           new_leads_to_save := acc.new_leads_to_save ++ [lead1],
           new_seen_ids := acc.new_seen_ids ++ [lead1.lead_id],
           seen_ids := acc.seen_ids ++ [lead1.lead_id],
           high_value := acc.high_value ++
             (if cfg.alert_threshold ≤ lead1.match_score then [lead1] else []) })

-- The finalize loop over the candidates: stops at the first uncaught error.
def finalizeLoop (cfg : RunnerCfg) (llmResp : JobLead → Option String) :
    List JobLead → RunAcc → Except String RunAcc
  | [], acc => Except.ok acc
  | lead :: rest, acc =>
    match finalizeStep cfg llmResp acc lead with
    | Except.error e => Except.error e
    | Except.ok acc2 => finalizeLoop cfg llmResp rest acc2

-- The run from raw leads to the end of the finalize loop: pre-filter loop,
-- enrichment (per-lead fetch outcomes given by `fetch`), finalize loop.  An
-- uncaught exception in the loop aborts main_async.
def runPipeline (cfg : RunnerCfg) (sha256hex : String → String)
    (seen_ids : List String) (raws : List JobLead)
    (fetch : JobLead → FetchOutcome) (now : String)
    (llmResp : JobLead → Option String) : Except String RunAcc :=
  let cands := runPrefilter cfg sha256hex seen_ids raws
  let enriched := cands.map (fun l => crawl_lead l (fetch l) now)
  finalizeLoop cfg llmResp enriched ⟨[], [], seen_ids, []⟩

-- What reaches the store: store.append_leads runs only after the finalize
-- loop completes (runner.py lines 152-156), so an aborted run persists
-- nothing.
def persistedLeads (r : Except String RunAcc) : List JobLead :=
  match r with
  | Except.error _ => []
  | Except.ok acc => acc.new_leads_to_save

-- ===== Concrete fixtures for witnesses and counterexamples =====

-- Concrete stand-in for the uninterpreted SHA-256 digest in closed theorems.
def shaId : String → String := fun s => s

-- A small but fully concrete configuration: one inclusion keyword, no
-- exclusions, pre-crawl threshold 0.25, geo filter active, LLM disabled.
def cfgRun : RunnerCfg :=
  { filters := { exclude_keywords := [], include_keywords := ["python"] },
    match_score_threshold := 0.25,
    geo_allowed_countries := true,
    llm_enabled := false,
    alert_threshold := 0.85 }

-- A raw lead passing geo and the tech filter.
def dupLead : JobLead :=
  { source := "test", company := "Acme", role_title := "Engineer",
    location_raw := "NY", description_snippet := "python",
    link := "https://a.co/1" }

-- A raw lead whose title is purely CJK, located in a blocklisted city.
def cjkTokyoLead : JobLead :=
  { source := "test", company := "Acme", role_title := "工程师",
    location_raw := "Tokyo, Japan", description_snippet := "python",
    link := "https://a.co/2" }

-- A raw lead whose title is purely CJK, located at an admissible US location.
def cjkNYLead : JobLead :=
  { source := "test", company := "Acme", role_title := "工程师",
    location_raw := "NY", description_snippet := "python",
    link := "https://a.co/3" }

-- Filter configuration and leads for the tech-filter witnesses.
def cfgFilter : TechFilter.FiltersConf :=
  { exclude_keywords := ["recruiter"], include_keywords := ["python", "aws", "kubernetes"] }

def leadThreeHits : JobLead :=
  { source := "test", company := "Acme", role_title := "Senior Backend Engineer",
    location_raw := "New York, NY", description_snippet := "python, aws, kubernetes",
    link := "https://a.co/4" }

def leadExcluded : JobLead :=
  { source := "test", company := "BadCorp", role_title := "Backend Recruiter",
    location_raw := "Remote", description_snippet := "python hiring",
    link := "https://a.co/5" }

-- Manager fixtures: a single groq endpoint.
def cfgLLMOne : LLMManager.LLMCfg :=
  { providers := [{ name := "groq", models := ["m1"] }], cooldown := 300, run_budget := 10 }

def cfgLLMBudget : LLMManager.LLMCfg :=
  { providers := [{ name := "groq", models := ["m1"] }], cooldown := 300, run_budget := 2 }

def stZero : LLMManager.GenState := { failures := fun _ => 0, calls_this_run := 0 }

def stAtBudget : LLMManager.GenState := { failures := fun _ => 0, calls_this_run := 2 }

def oracleEmpty : LLMManager.Oracle := fun _ _ => Except.ok ""

def oracleBoom : LLMManager.Oracle := fun _ _ => Except.error "boom"

def oracleHello : LLMManager.Oracle := fun _ _ => Except.ok "hello"

-- A lead carrying a prior score and notes, for the score_lead claims.
def leadScored : JobLead :=
  { source := "test", company := "Acme", role_title := "Engineer",
    location_raw := "NY", link := "https://a.co/6",
    match_score := 0.4, notes := "prior notes" }

-- A provider response whose score field is far outside [0, 1].
def respScoreFive : String :=
  "\x7b\"score\": 5.0, \"reason\": \"ok\"\x7d"

-- Crawler fixtures: three leads, one failing fetch between two successful
-- ones whose content is far above the 500-character auth-wall threshold.
def bigMarkdown : String := String.mk (List.replicate 600 'a')

def crawlLeadA : JobLead :=
  { source := "test", company := "A", role_title := "Engineer A",
    location_raw := "NY", link := "https://a.co/7" }

def crawlLeadB : JobLead :=
  { source := "test", company := "B", role_title := "Engineer B",
    location_raw := "NY", link := "https://a.co/8" }

def crawlLeadC : JobLead :=
  { source := "test", company := "C", role_title := "Engineer C",
    location_raw := "NY", link := "https://a.co/9" }

-- ===== Helper lemmas =====

lemma mem_dropWhile_of_mem {α : Type} (p : α → Bool) (l : List α) (a : α)
    (ha : a ∈ l) (hpa : p a = false) : a ∈ l.dropWhile p := by
  induction l with
  | nil => cases ha
  | cons b t ih =>
    rw [List.dropWhile_cons]
    by_cases hb : p b = true
    · simp only [hb, if_true]
      rcases List.mem_cons.mp ha with rfl | hmem
      · rw [hpa] at hb; cases hb
      · exact ih hmem
    · simp only [Bool.not_eq_true] at hb
      simp only [hb, Bool.false_eq_true, if_false]
      exact ha

lemma nonEnglish_not_pySpace (c : Char)
    (h : (isCJK c || isCyrillic c) = true) : isPySpace c = false := by
  have hval : 0x400 ≤ c.toNat := by
    simp only [isCJK, isCyrillic, Bool.or_eq_true, Bool.and_eq_true,
      decide_eq_true_eq] at h
    rcases h with ⟨h1, _⟩ | ⟨h1, _⟩ <;> omega
  by_contra hs
  rw [Bool.not_eq_false] at hs
  simp only [isPySpace, Bool.or_eq_true, decide_eq_true_eq] at hs
  have hlt : c.toNat < 0x400 := by
    rcases hs with ((((h1 | h1) | h1) | h1) | h1) | h1 <;> subst h1 <;> decide
  omega

lemma hasNonEnglish_pyStrip (s : String)
    (h : TechFilter.hasNonEnglish s = true) :
    TechFilter.hasNonEnglish (pyStrip s) = true := by
  simp only [TechFilter.hasNonEnglish, List.any_eq_true] at h ⊢
  obtain ⟨c, hc, hcp⟩ := h
  refine ⟨c, ?_, hcp⟩
  show c ∈ (((s.toList.dropWhile isPySpace).reverse.dropWhile isPySpace).reverse)
  rw [List.mem_reverse]
  apply mem_dropWhile_of_mem _ _ _ _ (nonEnglish_not_pySpace c hcp)
  rw [List.mem_reverse]
  exact mem_dropWhile_of_mem _ _ _ hc (nonEnglish_not_pySpace c hcp)

-- process_lead on a lead whose corpus triggers no exclusion keyword and whose
-- title passes the script check: the score is exactly the source's formula in
-- the number of inclusion hits.
lemma process_lead_score_formula (cfg : TechFilter.FiltersConf) (lead : JobLead)
    (hex : cfg.exclude_keywords.find?
        (fun w => reSearchWB (pyLower w) (TechFilter.corpusOf lead)) = none)
    (hsc : TechFilter.hasNonEnglish lead.role_title = false) :
    (TechFilter.process_lead cfg lead).match_score =
      if (TechFilter.incHits cfg lead).length = 0 then (0.1 : ℚ)
      else min ((0.5 : ℚ) + ((TechFilter.incHits cfg lead).length : ℚ) * 0.1) 1 := by
  simp only [TechFilter.process_lead, hex, hsc, Bool.false_eq_true, if_false]
  by_cases hn : (TechFilter.incHits cfg lead).length = 0
  · simp [hn]
  · simp [hn]

-- process_lead forces score 0 whenever the title contains a CJK or Cyrillic
-- character (via the exclusion branch or the anti-spam branch).
lemma process_lead_score_zero_of_nonEnglish (cfg : TechFilter.FiltersConf) (lead : JobLead)
    (h : TechFilter.hasNonEnglish lead.role_title = true) :
    (TechFilter.process_lead cfg lead).match_score = 0 := by
  simp only [TechFilter.process_lead]
  rcases hfind : cfg.exclude_keywords.find?
      (fun w => reSearchWB (pyLower w) (TechFilter.corpusOf lead)) with _ | bad
  · simp [h]
  · rfl

-- process_lead on a lead with a triggering exclusion keyword: the entire
-- result record (early return at tech_filter.py line 22).
lemma process_lead_excluded (cfg : TechFilter.FiltersConf) (lead : JobLead) (bad : String)
    (hfind : cfg.exclude_keywords.find?
        (fun w => reSearchWB (pyLower w) (TechFilter.corpusOf lead)) = some bad) :
    TechFilter.process_lead cfg lead =
      { lead with match_score := 0, notes := "Excluded by keyword: " ++ bad } := by
  simp only [TechFilter.process_lead, hfind]

lemma scoreFormula_mono (a b : ℕ) (hab : a ≤ b) :
    min ((0.5 : ℚ) + (a : ℚ) * 0.1) 1 ≤ min ((0.5 : ℚ) + (b : ℚ) * 0.1) 1 := by
  apply min_le_min _ le_rfl
  have hc : (a : ℚ) ≤ (b : ℚ) := Nat.cast_le.mpr hab
  nlinarith

-- ===== Claim theorems =====

/-- Claim C6: on a lead triggering no exclusion keyword and no script check,
the relevance score is min(1.0, 0.5 + 0.1 * n) in the number n of whole-word
inclusion-keyword hits — exactly 0.6 for one hit, 0.8 for three, saturating at
1.0 from five on, non-decreasing in n — and with zero hits the lead gets the
low non-zero score 0.1 instead of 0.0. -/
theorem claim_C6 (cfg : TechFilter.FiltersConf) (lead lead' : JobLead)
    (hex : ∀ w ∈ cfg.exclude_keywords,
        reSearchWB (pyLower w) (TechFilter.corpusOf lead) = false)
    (hsc : TechFilter.hasNonEnglish lead.role_title = false)
    (hex' : ∀ w ∈ cfg.exclude_keywords,
        reSearchWB (pyLower w) (TechFilter.corpusOf lead') = false)
    (hsc' : TechFilter.hasNonEnglish lead'.role_title = false) :
    (1 ≤ (TechFilter.incHits cfg lead).length →
        (TechFilter.process_lead cfg lead).match_score =
          min ((0.5 : ℚ) + ((TechFilter.incHits cfg lead).length : ℚ) * 0.1) 1) ∧
    ((TechFilter.incHits cfg lead).length = 1 →
        (TechFilter.process_lead cfg lead).match_score = 0.6) ∧
    ((TechFilter.incHits cfg lead).length = 3 →
        (TechFilter.process_lead cfg lead).match_score = 0.8) ∧
    (5 ≤ (TechFilter.incHits cfg lead).length →
        (TechFilter.process_lead cfg lead).match_score = 1) ∧
    ((TechFilter.incHits cfg lead).length = 0 →
        (TechFilter.process_lead cfg lead).match_score = 0.1 ∧
        (0 : ℚ) < (TechFilter.process_lead cfg lead).match_score) ∧
    (1 ≤ (TechFilter.incHits cfg lead).length →
        (TechFilter.incHits cfg lead).length ≤ (TechFilter.incHits cfg lead').length →
        (TechFilter.process_lead cfg lead).match_score ≤
          (TechFilter.process_lead cfg lead').match_score) := by
  have hfex : cfg.exclude_keywords.find?
      (fun w => reSearchWB (pyLower w) (TechFilter.corpusOf lead)) = none := by
    rw [List.find?_eq_none]
    intro w hw
    simp [hex w hw]
  have hfex' : cfg.exclude_keywords.find?
      (fun w => reSearchWB (pyLower w) (TechFilter.corpusOf lead')) = none := by
    rw [List.find?_eq_none]
    intro w hw
    simp [hex' w hw]
  have hfml := process_lead_score_formula cfg lead hfex hsc
  have hfml' := process_lead_score_formula cfg lead' hfex' hsc'
  refine ⟨?_, ?_, ?_, ?_, ?_, ?_⟩
  · intro h1
    rw [hfml, if_neg (by omega)]
  · intro h1
    rw [hfml, if_neg (by omega), h1]
    norm_num
  · intro h3
    rw [hfml, if_neg (by omega), h3]
    norm_num
  · intro h5
    rw [hfml, if_neg (by omega)]
    have hc : (5 : ℚ) ≤ ((TechFilter.incHits cfg lead).length : ℚ) := by
      exact_mod_cast h5
    rw [min_eq_right (by nlinarith)]
  · intro h0
    rw [hfml, if_pos h0]
    norm_num
  · intro h1 hle
    rw [hfml, if_neg (by omega), hfml', if_neg (by omega)]
    exact scoreFormula_mono _ _ hle

/-- Claim C6 witness: on the concrete three-hit lead the score is the formula
value for n = 3. -/
theorem claim_C6_witness :
    (TechFilter.process_lead cfgFilter leadThreeHits).match_score =
      min ((0.5 : ℚ) + ((TechFilter.incHits cfgFilter leadThreeHits).length : ℚ) * 0.1) 1 :=
  (claim_C6 cfgFilter leadThreeHits leadThreeHits (by decide) (by decide)
    (by decide) (by decide)).1 (by decide)

/-- Claim C7: a whole-word exclusion-keyword hit in the corpus forces score 0.0,
records the first triggering term in the notes, and returns before the
inclusion scan and categorization run (matched_keywords and role_category are
left untouched), even when inclusion keywords are also present. -/
theorem claim_C7 (cfg : TechFilter.FiltersConf) (lead : JobLead) (w : String)
    (hw : w ∈ cfg.exclude_keywords)
    (hm : reSearchWB (pyLower w) (TechFilter.corpusOf lead) = true) :
    (TechFilter.process_lead cfg lead).match_score = 0 ∧
    (∃ b, cfg.exclude_keywords.find?
        (fun x => reSearchWB (pyLower x) (TechFilter.corpusOf lead)) = some b ∧
      reSearchWB (pyLower b) (TechFilter.corpusOf lead) = true ∧
      (TechFilter.process_lead cfg lead).notes = "Excluded by keyword: " ++ b) ∧
    (TechFilter.process_lead cfg lead).matched_keywords = lead.matched_keywords ∧
    (TechFilter.process_lead cfg lead).role_category = lead.role_category := by
  have hsome : (cfg.exclude_keywords.find?
      (fun x => reSearchWB (pyLower x) (TechFilter.corpusOf lead))).isSome := by
    rw [List.find?_isSome]
    exact ⟨w, hw, by simp [hm]⟩
  obtain ⟨b, hb⟩ := Option.isSome_iff_exists.mp hsome
  have heq := process_lead_excluded cfg lead b hb
  have hpb : reSearchWB (pyLower b) (TechFilter.corpusOf lead) = true := by
    have := List.find?_some hb
    simpa using this
  rw [heq]
  exact ⟨rfl, ⟨b, hb, hpb, rfl⟩, rfl, rfl⟩

/-- Claim C7 witness: the concrete lead contains both the exclusion keyword
"recruiter" and the inclusion keyword "python", and still scores 0.0. -/
theorem claim_C7_witness :
    (TechFilter.process_lead cfgFilter leadExcluded).match_score = 0 :=
  (claim_C7 cfgFilter leadExcluded "recruiter" (by decide) (by decide)).1

/-- Claim C8: a blocklisted foreign-locale token matching the normalized
location with word boundaries forces is_us = false regardless of any allowlist
match also present, and the empty (missing) location string is never admissible
and defaults remote_type to onsite. -/
theorem claim_C8 (raw f : String)
    (hf : f ∈ LocationParser.foreign_indicators)
    (hm : reSearchWB f (LocationParser.locNorm raw) = true) :
    (LocationParser.parse raw).is_us = false ∧
    (LocationParser.parse "").is_us = false ∧
    (LocationParser.parse "").remote_type = "onsite" := by
  refine ⟨?_, by decide, by decide⟩
  have hsome : (LocationParser.foreign_indicators.find?
      (fun g => reSearchWB g (LocationParser.locNorm raw))).isSome := by
    rw [List.find?_isSome]
    exact ⟨f, hf, by simp [hm]⟩
  obtain ⟨g, hg⟩ := Option.isSome_iff_exists.mp hsome
  simp only [LocationParser.parse, hg]

/-- Claim C8 witness: "Toronto, NY" carries both the blocklisted city Toronto
and the allowlisted state code NY, and is classified non-admissible. -/
theorem claim_C8_witness :
    (LocationParser.parse "Toronto, NY").is_us = false :=
  (claim_C8 "Toronto, NY" "toronto" (by decide) (by decide)).1

/-- Claim C9 (amended): a lead whose title contains CJK or Cyrillic characters
has its relevance score forced to 0.0 by the tech filter regardless of keyword
content, and (for a positive pre-crawl threshold) is never marked as a crawl
candidate, hence never reaches the enrichment or LLM stages; geo-normalization,
however, runs before the relevance filter in the pre-filter loop, so the geo
stage is reached (see the counterexample for a CJK lead dropped by geo). -/
theorem claim_C9 (cfg : RunnerCfg) (sha256hex : String → String)
    (seen : List String) (lead : JobLead)
    (hcjk : TechFilter.hasNonEnglish lead.role_title = true) :
    (TechFilter.process_lead cfg.filters lead).match_score = 0 ∧
    (0 < cfg.match_score_threshold →
      ∀ l', prefilterStep cfg sha256hex seen lead ≠ PreOutcome.candidate l') := by
  refine ⟨process_lead_score_zero_of_nonEnglish _ _ hcjk, ?_⟩
  intro hth l'
  have h' : TechFilter.hasNonEnglish (pyStrip lead.role_title) = true :=
    hasNonEnglish_pyStrip _ hcjk
  simp only [prefilterStep]
  split_ifs with h1 h2 h3
  · simp
  · simp
  · simp
  · exact absurd (by
      rw [process_lead_score_zero_of_nonEnglish cfg.filters _ h']
      exact hth) h3

/-- Claim C9 counterexample: a lead with a purely CJK title and a blocklisted
location is dropped by the geo stage, not before it — the geo-normalization
stage is reached (and decides the outcome), contradicting the claim that such
leads are dropped before the geo stage. -/
theorem claim_C9_counterexample :
    prefilterStep cfgRun shaId [] cjkTokyoLead = PreOutcome.droppedGeo := by
  decide

/-- Claim C9 witness: the concrete CJK-titled lead scores 0.0 in the filter. -/
theorem claim_C9_witness :
    (TechFilter.process_lead cfgRun.filters cjkNYLead).match_score = 0 :=
  (claim_C9 cfgRun shaId [] cjkNYLead (by decide)).1

lemma generateGo_calls (cooldown now : ℚ) (oracle : LLMManager.Oracle) :
    ∀ (pairs : List (String × String)) (fails : String → ℚ) (calls : ℕ),
      (LLMManager.generateGo cooldown now oracle pairs fails calls).calls =
        calls + (if (LLMManager.generateGo cooldown now oracle pairs fails calls).res.isSome
                 then 1 else 0) := by
  intro pairs
  induction pairs with
  | nil => intro fails calls; simp [LLMManager.generateGo]
  | cons hd tl ih =>
    intro fails calls
    obtain ⟨pn, m⟩ := hd
    simp only [LLMManager.generateGo]
    split
    · split
      · split
        · simp
        · exact ih fails calls
      · exact ih (fun k => if k = pn ++ ":" ++ m then now else fails k) calls
    · exact ih fails calls

lemma generateGo_truthy (cooldown now : ℚ) (oracle : LLMManager.Oracle) :
    ∀ (pairs : List (String × String)) (fails : String → ℚ) (calls : ℕ) (r : String),
      (LLMManager.generateGo cooldown now oracle pairs fails calls).res = some r →
      r ≠ "" := by
  intro pairs
  induction pairs with
  | nil => intro fails calls r hr; cases hr
  | cons hd tl ih =>
    intro fails calls r hr
    obtain ⟨pn, m⟩ := hd
    simp only [LLMManager.generateGo] at hr
    split_ifs at hr with h1
    · cases horacle : oracle pn m with
      | ok r0 =>
        rw [horacle] at hr
        simp only at hr
        split_ifs at hr with hr0
        · simp only at hr
          obtain rfl : r0 = r := by injection hr
          exact hr0
        · exact ih fails calls r (by simpa using hr)
      | error e =>
        rw [horacle] at hr
        exact ih (fun k => if k = pn ++ ":" ++ m then now else fails k) calls r
          (by simpa using hr)
    · exact ih fails calls r hr

/-- Claim C2: once the successful-call counter has reached the configured
ceiling, generate returns the refusal value (none) with no endpoint attempted
and state untouched (the budget is checked once at the top of generate, before
the provider loop); the counter is incremented exactly when the result is a
success, and a returned result is always truthy (nonempty). -/
theorem claim_C2 (cfg : LLMManager.LLMCfg) (oracle : LLMManager.Oracle)
    (now : ℚ) (st : LLMManager.GenState) :
    (cfg.run_budget ≤ st.calls_this_run →
        LLMManager.generate cfg oracle now st =
          ⟨none, st.failures, st.calls_this_run, []⟩) ∧
    ((LLMManager.generate cfg oracle now st).calls =
        st.calls_this_run +
          (if (LLMManager.generate cfg oracle now st).res.isSome then 1 else 0)) ∧
    (∀ r, (LLMManager.generate cfg oracle now st).res = some r → r ≠ "") := by
  refine ⟨?_, ?_, ?_⟩
  · intro h
    simp only [LLMManager.generate]
    rw [if_pos h]
  · simp only [LLMManager.generate]
    split
    · simp
    · exact generateGo_calls cfg.cooldown now oracle _ st.failures st.calls_this_run
  · intro r
    simp only [LLMManager.generate]
    split
    · intro hr; cases hr
    · exact generateGo_truthy cfg.cooldown now oracle _ st.failures st.calls_this_run r

-- Step equations for generateGo on a cons cell, one per branch of the loop
-- body.

lemma generateGo_cons_skip (cooldown now : ℚ) (oracle : LLMManager.Oracle)
    (pn m : String) (rest : List (String × String)) (fails : String → ℚ) (calls : ℕ)
    (h : ¬ now - fails (pn ++ ":" ++ m) > cooldown) :
    LLMManager.generateGo cooldown now oracle ((pn, m) :: rest) fails calls =
      LLMManager.generateGo cooldown now oracle rest fails calls := by
  simp only [LLMManager.generateGo]
  rw [if_neg h]

lemma generateGo_cons_ok (cooldown now : ℚ) (oracle : LLMManager.Oracle)
    (pn m : String) (rest : List (String × String)) (fails : String → ℚ) (calls : ℕ)
    (r : String) (h : now - fails (pn ++ ":" ++ m) > cooldown)
    (hok : oracle pn m = Except.ok r) (hr : r ≠ "") :
    LLMManager.generateGo cooldown now oracle ((pn, m) :: rest) fails calls =
      ⟨some r, fails, calls + 1, [(pn, m)]⟩ := by
  simp only [LLMManager.generateGo]
  rw [if_pos h]
  split
  · rename_i r' hok'
    rw [hok] at hok'
    injection hok' with hre
    subst hre
    rw [if_pos hr]
  · rename_i e herr
    rw [hok] at herr
    cases herr

lemma generateGo_cons_ok_empty (cooldown now : ℚ) (oracle : LLMManager.Oracle)
    (pn m : String) (rest : List (String × String)) (fails : String → ℚ) (calls : ℕ)
    (h : now - fails (pn ++ ":" ++ m) > cooldown)
    (hok : oracle pn m = Except.ok "") :
    LLMManager.generateGo cooldown now oracle ((pn, m) :: rest) fails calls =
      ⟨(LLMManager.generateGo cooldown now oracle rest fails calls).res,
       (LLMManager.generateGo cooldown now oracle rest fails calls).failures,
       (LLMManager.generateGo cooldown now oracle rest fails calls).calls,
       (pn, m) :: (LLMManager.generateGo cooldown now oracle rest fails calls).attempted⟩ := by
  simp only [LLMManager.generateGo]
  rw [if_pos h]
  split
  · rename_i r' hok'
    rw [hok] at hok'
    injection hok' with hre
    subst hre
    rw [if_neg (by simp)]
  · rename_i e herr
    rw [hok] at herr
    cases herr

lemma generateGo_cons_error (cooldown now : ℚ) (oracle : LLMManager.Oracle)
    (pn m : String) (rest : List (String × String)) (fails : String → ℚ) (calls : ℕ)
    (e : String) (h : now - fails (pn ++ ":" ++ m) > cooldown)
    (herr : oracle pn m = Except.error e) :
    LLMManager.generateGo cooldown now oracle ((pn, m) :: rest) fails calls =
      ⟨(LLMManager.generateGo cooldown now oracle rest
          (fun k => if k = pn ++ ":" ++ m then now else fails k) calls).res,
       (LLMManager.generateGo cooldown now oracle rest
          (fun k => if k = pn ++ ":" ++ m then now else fails k) calls).failures,
       (LLMManager.generateGo cooldown now oracle rest
          (fun k => if k = pn ++ ":" ++ m then now else fails k) calls).calls,
       (pn, m) :: (LLMManager.generateGo cooldown now oracle rest
          (fun k => if k = pn ++ ":" ++ m then now else fails k) calls).attempted⟩ := by
  simp only [LLMManager.generateGo]
  rw [if_pos h]
  split
  · rename_i r' hok'
    rw [herr] at hok'
    cases hok'
  · rfl

-- Every breaker entry after a generateGo run is either its previous value or
-- the current clock (record_failure only ever stores the call-time clock).
lemma generateGo_failures_cases (cooldown now : ℚ) (oracle : LLMManager.Oracle) :
    ∀ (pairs : List (String × String)) (fails : String → ℚ) (calls : ℕ) (k : String),
      (LLMManager.generateGo cooldown now oracle pairs fails calls).failures k = fails k ∨
      (LLMManager.generateGo cooldown now oracle pairs fails calls).failures k = now := by
  intro pairs
  induction pairs with
  | nil => intro fails calls k; left; rfl
  | cons hd tl ih =>
    intro fails calls k
    obtain ⟨pn, m⟩ := hd
    by_cases h1 : now - fails (pn ++ ":" ++ m) > cooldown
    · cases hok : oracle pn m with
      | ok r =>
        by_cases hr : r = ""
        · subst hr
          rw [generateGo_cons_ok_empty cooldown now oracle pn m tl fails calls h1 hok]
          exact ih fails calls k
        · rw [generateGo_cons_ok cooldown now oracle pn m tl fails calls r h1 hok hr]
          left; rfl
      | error e =>
        rw [generateGo_cons_error cooldown now oracle pn m tl fails calls e h1 hok]
        rcases ih (fun k' => if k' = pn ++ ":" ++ m then now else fails k') calls k with h | h
        · by_cases hk : k = pn ++ ":" ++ m
          · right
            show (LLMManager.generateGo cooldown now oracle tl
              (fun k' => if k' = pn ++ ":" ++ m then now else fails k') calls).failures k = now
            rw [h, if_pos hk]
          · left
            show (LLMManager.generateGo cooldown now oracle tl
              (fun k' => if k' = pn ++ ":" ++ m then now else fails k') calls).failures k = fails k
            rw [h, if_neg hk]
        · right
          exact h
    · rw [generateGo_cons_skip cooldown now oracle pn m tl fails calls h1]
      exact ih fails calls k

-- If an attempted endpoint's call raised an error, its breaker key holds the
-- current clock in the final failures map.
lemma generateGo_error_recorded (cooldown now : ℚ) (oracle : LLMManager.Oracle) :
    ∀ (pairs : List (String × String)) (fails : String → ℚ) (calls : ℕ) (pn m e : String),
      (pn, m) ∈ (LLMManager.generateGo cooldown now oracle pairs fails calls).attempted →
      oracle pn m = Except.error e →
      (LLMManager.generateGo cooldown now oracle pairs fails calls).failures
        (pn ++ ":" ++ m) = now := by
  intro pairs
  induction pairs with
  | nil => intro fails calls pn m e hmem _; cases hmem
  | cons hd tl ih =>
    intro fails calls pn m e hmem horacle
    obtain ⟨pn', m'⟩ := hd
    by_cases h1 : now - fails (pn' ++ ":" ++ m') > cooldown
    · cases hok : oracle pn' m' with
      | ok r =>
        by_cases hr : r = ""
        · subst hr
          rw [generateGo_cons_ok_empty cooldown now oracle pn' m' tl fails calls h1 hok]
            at hmem ⊢
          rcases List.mem_cons.mp hmem with heq | hmem2
          · injection heq with heq1 heq2
            subst heq1; subst heq2
            rw [horacle] at hok
            cases hok
          · exact ih fails calls pn m e hmem2 horacle
        · rw [generateGo_cons_ok cooldown now oracle pn' m' tl fails calls r h1 hok hr]
            at hmem ⊢
          rcases List.mem_cons.mp hmem with heq | hmem2
          · injection heq with heq1 heq2
            subst heq1; subst heq2
            rw [horacle] at hok
            cases hok
          · cases hmem2
      | error e' =>
        rw [generateGo_cons_error cooldown now oracle pn' m' tl fails calls e' h1 hok]
          at hmem ⊢
        rcases List.mem_cons.mp hmem with heq | hmem2
        · injection heq with heq1 heq2
          subst heq1; subst heq2
          rcases generateGo_failures_cases cooldown now oracle tl
              (fun k => if k = pn ++ ":" ++ m then now else fails k) calls
              (pn ++ ":" ++ m) with h | h
          · show (LLMManager.generateGo cooldown now oracle tl
              (fun k => if k = pn ++ ":" ++ m then now else fails k) calls).failures
                (pn ++ ":" ++ m) = now
            rw [h, if_pos rfl]
          · exact h
        · exact ih (fun k => if k = pn' ++ ":" ++ m' then now else fails k) calls pn m e
            hmem2 horacle
    · rw [generateGo_cons_skip cooldown now oracle pn' m' tl fails calls h1] at hmem ⊢
      exact ih fails calls pn m e hmem horacle

-- When no attempted call raises, the breaker map is left untouched — in
-- particular empty/falsy results record nothing.
lemma generateGo_no_error_failures (cooldown now : ℚ) (oracle : LLMManager.Oracle)
    (hno : ∀ pn m e, oracle pn m ≠ Except.error e) :
    ∀ (pairs : List (String × String)) (fails : String → ℚ) (calls : ℕ),
      (LLMManager.generateGo cooldown now oracle pairs fails calls).failures = fails := by
  intro pairs
  induction pairs with
  | nil => intro fails calls; rfl
  | cons hd tl ih =>
    intro fails calls
    obtain ⟨pn, m⟩ := hd
    by_cases h1 : now - fails (pn ++ ":" ++ m) > cooldown
    · cases hok : oracle pn m with
      | ok r =>
        by_cases hr : r = ""
        · subst hr
          rw [generateGo_cons_ok_empty cooldown now oracle pn m tl fails calls h1 hok]
          exact ih fails calls
        · rw [generateGo_cons_ok cooldown now oracle pn m tl fails calls r h1 hok hr]
      | error e => exact absurd hok (hno pn m e)
    · rw [generateGo_cons_skip cooldown now oracle pn m tl fails calls h1]
      exact ih fails calls

/-- Claim C5 (amended): in the provider loop, an endpoint attempt that raises
an error records the current clock under that endpoint's breaker key and
iteration continues to the next candidate without surfacing the error; an
attempt that returns an empty/falsy result likewise continues to the next
candidate, but records no failure timestamp (the breaker map passes through
unchanged at that step, and is globally unchanged when no attempt raises). -/
theorem claim_C5 (cooldown now : ℚ) (oracle : LLMManager.Oracle)
    (pairs : List (String × String)) (fails : String → ℚ) (calls : ℕ) :
    (∀ pn m e, (pn, m) ∈ (LLMManager.generateGo cooldown now oracle pairs fails calls).attempted →
        oracle pn m = Except.error e →
        (LLMManager.generateGo cooldown now oracle pairs fails calls).failures
          (pn ++ ":" ++ m) = now) ∧
    ((∀ pn m e, oracle pn m ≠ Except.error e) →
        (LLMManager.generateGo cooldown now oracle pairs fails calls).failures = fails) ∧
    (∀ pn m rest, pairs = (pn, m) :: rest →
        now - fails (pn ++ ":" ++ m) > cooldown →
        oracle pn m = Except.ok "" →
        LLMManager.generateGo cooldown now oracle pairs fails calls =
          ⟨(LLMManager.generateGo cooldown now oracle rest fails calls).res,
           (LLMManager.generateGo cooldown now oracle rest fails calls).failures,
           (LLMManager.generateGo cooldown now oracle rest fails calls).calls,
           (pn, m) :: (LLMManager.generateGo cooldown now oracle rest fails calls).attempted⟩) ∧
    (∀ pn m rest e, pairs = (pn, m) :: rest →
        now - fails (pn ++ ":" ++ m) > cooldown →
        oracle pn m = Except.error e →
        LLMManager.generateGo cooldown now oracle pairs fails calls =
          ⟨(LLMManager.generateGo cooldown now oracle rest
              (fun k => if k = pn ++ ":" ++ m then now else fails k) calls).res,
           (LLMManager.generateGo cooldown now oracle rest
              (fun k => if k = pn ++ ":" ++ m then now else fails k) calls).failures,
           (LLMManager.generateGo cooldown now oracle rest
              (fun k => if k = pn ++ ":" ++ m then now else fails k) calls).calls,
           (pn, m) :: (LLMManager.generateGo cooldown now oracle rest
              (fun k => if k = pn ++ ":" ++ m then now else fails k) calls).attempted⟩) := by
  refine ⟨?_, ?_, ?_, ?_⟩
  · intro pn m e hmem horacle
    exact generateGo_error_recorded cooldown now oracle pairs fails calls pn m e hmem horacle
  · intro hno
    exact generateGo_no_error_failures cooldown now oracle hno pairs fails calls
  · intro pn m rest hp h1 hok
    subst hp
    exact generateGo_cons_ok_empty cooldown now oracle pn m rest fails calls h1 hok
  · intro pn m rest e hp h1 herr
    subst hp
    exact generateGo_cons_error cooldown now oracle pn m rest fails calls e h1 herr

/-- Claim C5 counterexample: a single endpoint that is attempted and returns an
empty (falsy) result: iteration ends with no overall result, yet no failure
timestamp is recorded against the endpoint's key — its breaker entry still
reads the default 0 rather than the call-time clock 1000 the claim requires. -/
theorem claim_C5_counterexample :
    (LLMManager.generate cfgLLMOne oracleEmpty 1000 stZero).attempted = [("groq", "m1")] ∧
    (LLMManager.generate cfgLLMOne oracleEmpty 1000 stZero).res = none ∧
    (LLMManager.generate cfgLLMOne oracleEmpty 1000 stZero).failures ("groq" ++ ":" ++ "m1") = 0 := by
  refine ⟨by decide, by decide, by decide⟩

/-- Claim C5 witness: an endpoint whose call raises gets the clock recorded
under its breaker key. -/
theorem claim_C5_witness :
    (LLMManager.generateGo 300 1000 oracleBoom [("groq", "m1")] (fun _ => 0) 0).failures
      ("groq" ++ ":" ++ "m1") = 1000 :=
  (claim_C5 300 1000 oracleBoom [("groq", "m1")] (fun _ => 0) 0).1 "groq" "m1" "boom"
    (by decide) rfl

/-- Claim C2 witness: with the counter already at the ceiling of 2, generate
refuses with no endpoint attempted and unchanged state. -/
theorem claim_C2_witness :
    LLMManager.generate cfgLLMBudget oracleHello 1000 stAtBudget =
      ⟨none, stAtBudget.failures, stAtBudget.calls_this_run, []⟩ :=
  (claim_C2 cfgLLMBudget oracleHello 1000 stAtBudget).1 (by decide)

-- On every constructible JobLead, score_lead raises on its line-141 attribute
-- read, so the try/except at its call site (runner.py lines 128-132) keeps the
-- lead exactly as it was; in particular every failure path of lines 169-188
-- (falsy response, JSON decode failure, float conversion failure) also leaves
-- the lead unchanged by construction.
lemma score_lead_call_unchanged (lead : JobLead) (resp : Option String) :
    LLMManager.score_lead_call lead resp = lead := rfl

/-- Claim C4: for every lead and every LLM response, if score_lead receives no
response or an unparseable response (JSON decoding or score conversion fails),
the lead's match_score and notes after the call — the caller wraps score_lead
in try/except and keeps the lead on a raised error — equal their values before
the call. -/
theorem claim_C4 (lead : JobLead) (resp : Option String)
    (_h : resp = none ∨ ∃ t, resp = some t ∧
        LLMManager.scoreParsedFull lead.match_score t = none) :
    (LLMManager.score_lead_call lead resp).match_score = lead.match_score ∧
    (LLMManager.score_lead_call lead resp).notes = lead.notes := by
  rw [score_lead_call_unchanged lead resp]
  exact ⟨rfl, rfl⟩

/-- Claim C4 witness: a non-JSON response leaves score and notes unchanged on a
concrete lead. -/
theorem claim_C4_witness :
    (LLMManager.score_lead_call leadScored (some "not json")).match_score =
      leadScored.match_score ∧
    (LLMManager.score_lead_call leadScored (some "not json")).notes =
      leadScored.notes :=
  claim_C4 leadScored (some "not json") (Or.inr ⟨"not json", rfl, by decide⟩)

set_option maxRecDepth 8000

-- The rule-based filter always writes a score inside [0, 1], on every branch.
lemma process_lead_score_bounds (cfg : TechFilter.FiltersConf) (lead : JobLead) :
    0 ≤ (TechFilter.process_lead cfg lead).match_score ∧
    (TechFilter.process_lead cfg lead).match_score ≤ 1 := by
  rcases hfind : cfg.exclude_keywords.find?
      (fun w => reSearchWB (pyLower w) (TechFilter.corpusOf lead)) with _ | bad
  · by_cases hsc : TechFilter.hasNonEnglish lead.role_title = true
    · rw [process_lead_score_zero_of_nonEnglish cfg lead hsc]
      norm_num
    · have hsc' : TechFilter.hasNonEnglish lead.role_title = false := by
        simpa using hsc
      rw [process_lead_score_formula cfg lead hfind hsc']
      split_ifs with hn
      · norm_num
      · refine ⟨le_min (by positivity) (by norm_num), min_le_right _ _⟩
  · have h0 : (TechFilter.process_lead cfg lead).match_score = 0 := by
      rw [process_lead_excluded cfg lead bad hfind]
    rw [h0]
    norm_num

/-- Claim C10: every pipeline stage that writes match_score keeps it within
[0.0, 1.0] on the shipped code, and no failure path ever raises the score: the
rule-based filter writes only values in [0, 1] (its failure branches write the
low values 0.0 and 0.1), while the LLM deep-scorer stage never writes at all —
score_lead raises AttributeError on the undeclared full_description attribute
before reaching its score write, and the caller's except keeps the lead as it
was — so the scorer stage leaves every lead, and so every in-range score,
unchanged. -/
theorem claim_C10 :
    (∀ cfg lead, 0 ≤ (TechFilter.process_lead cfg lead).match_score ∧
        (TechFilter.process_lead cfg lead).match_score ≤ 1) ∧
    (∀ lead resp, LLMManager.score_lead_call lead resp = lead) ∧
    (∀ lead resp, 0 ≤ lead.match_score → lead.match_score ≤ 1 →
        0 ≤ (LLMManager.score_lead_call lead resp).match_score ∧
        (LLMManager.score_lead_call lead resp).match_score ≤ 1) := by
  refine ⟨process_lead_score_bounds, score_lead_call_unchanged, ?_⟩
  intro lead resp h0 h1
  rw [score_lead_call_unchanged lead resp]
  exact ⟨h0, h1⟩

/-- Claim C10 witness: even a provider response carrying the out-of-range
score 5.0 leaves a concrete in-range lead in range (the scorer never writes:
the call raises before its score write and the caller keeps the lead). -/
theorem claim_C10_witness :
    0 ≤ (LLMManager.score_lead_call leadScored (some respScoreFive)).match_score ∧
    (LLMManager.score_lead_call leadScored (some respScoreFive)).match_score ≤ 1 :=
  claim_C10.2.2 leadScored (some respScoreFive) (by decide) (by decide)

/-- Claim C3: evaluating the enrichment batch of the claim — two successful
fetches with content far above the auth-wall threshold around one raising
fetch — returns every lead bit-for-bit unchanged: no exception escapes (the
function is total), the failing lead is untouched as claimed, but the two
succeeding leads also end with empty full-content and no crawl timestamp,
because JobLead (sources/base.py) declares no full_description field and the
pydantic assignment in crawler.py line 36 raises and is swallowed. -/
theorem claim_C3_eval :
    enrich_leads
      [(crawlLeadA, FetchOutcome.result true bigMarkdown),
       (crawlLeadB, FetchOutcome.raise "boom"),
       (crawlLeadC, FetchOutcome.result true bigMarkdown)] "2026-01-01T00:00:00" =
      [crawlLeadA, crawlLeadB, crawlLeadC] := by
  decide

/-- Claim C1: evaluating the pipeline on a batch containing the same raw lead
twice (equal company, title and link, hence equal identities) with an empty
seen-identity set: the pre-filter loop marks BOTH copies as crawl candidates —
it never adds identities to its seen set, so the second duplicate is not
dropped at crawl-candidate marking as the claim describes — and the finalize
loop then aborts with AttributeError on its first candidate (runner.py line
126 reads the undeclared full_description attribute outside any try), so the
run persists nothing at all: the claimed union-on-admission-then-drop
mechanism never executes. -/
theorem claim_C1_bug :
    (runPrefilter cfgRun shaId [] [dupLead, dupLead]).map (fun l => l.lead_id) =
      ["acmeengineerhttps://a.co/1", "acmeengineerhttps://a.co/1"] ∧
    runPipeline cfgRun shaId [] [dupLead, dupLead]
        (fun _ => FetchOutcome.raise "net") "t0" (fun _ => none) =
      Except.error attributeErrorFullDescription ∧
    persistedLeads (runPipeline cfgRun shaId [] [dupLead, dupLead]
        (fun _ => FetchOutcome.raise "net") "t0" (fun _ => none)) = [] := by
  refine ⟨by decide, rfl, by decide⟩
